import Mathlib

/-!
Verification of the MAPLE n8n integration layer (maheshvaikri-code/maple-oss):
a shallow embedding of the coordinator pipeline, the demo broker endpoints,
the resource-manager node operations, the agent retry loop, the WebSocket
authentication check, and the Result container, with theorems settling the
frozen specification claims against these definitions.
-/

namespace Maple

/-!
## Result container

Modelled from the spec: the Result implementation lives in lib/MAPLEClient.js
(exporting Ok and Err), which is not included under src; only its test
(MAPLETestSuite.testResultType) and its callers are. The definition follows
the spec contract in section 4.1 (Ok and Err constructors, isOk and isErr,
unwrapOr, map transforms the success value only, mapErr the error only,
andThen short-circuits on Err) and the behaviors asserted by the test:
Ok carries a value field, Err an error field, and unwrapOr on Ok returns the
stored value.
-/

/-- Modelled from the spec: two-variant outcome container Ok(value) and
Err(error) from lib/MAPLEClient.js, which is absent from src. -/
inductive MResult (α ε : Type) where
  | ok (value : α)
  | err (error : ε)
deriving Repr, DecidableEq

namespace MResult

/-- Predicate isOk of the Result contract. -/
def isOk : MResult α ε → Bool
  | .ok _ => true
  | .err _ => false

/-- Predicate isErr of the Result contract. -/
def isErr : MResult α ε → Bool
  | .ok _ => false
  | .err _ => true

/-- The value field: present exactly on Ok results. -/
def valueField : MResult α ε → Option α
  | .ok v => some v
  | .err _ => none

/-- The error field: present exactly on Err results. -/
def errorField : MResult α ε → Option ε
  | .ok _ => none
  | .err e => some e

/-- unwrapOr of the Result contract. -/
def unwrapOr (r : MResult α ε) (dflt : α) : α :=
  match r with
  | .ok v => v
  | .err _ => dflt

/-- map transforms the success value only. -/
def map (f : α → β) : MResult α ε → MResult β ε
  | .ok v => .ok (f v)
  | .err e => .err e

/-- mapErr transforms the error only. -/
def mapErr (f : ε → ε₂) : MResult α ε → MResult α ε₂
  | .ok v => .ok v
  | .err e => .err (f e)

/-- andThen chains computations and short-circuits on Err. -/
def andThen (r : MResult α ε) (f : α → MResult β ε) : MResult β ε :=
  match r with
  | .ok v => f v
  | .err e => .err e

theorem isErr_eq_true_iff (r : MResult α ε) :
    r.isErr = true ↔ ∃ e, r = .err e := by
  cases r <;> simp [isErr]

theorem isOk_eq_true_iff (r : MResult α ε) :
    r.isOk = true ↔ ∃ v, r = .ok v := by
  cases r <;> simp [isOk]

end MResult

/-!
## WebSocket authentication (MAPLEDemoLauncher.startWebSocketServer)

The verifyClient callback in src/n8n-integration/demo/launch-demo.js reads the
Authorization header and returns the JavaScript truthiness of
authHeader && authHeader.startsWith("Bearer "): a missing header and the empty
string are falsy, otherwise acceptance is decided solely by the prefix test.
The configured API key is never consulted.
-/

/-- JavaScript String.prototype.startsWith, as a prefix test on the character
sequence. -/
def jsStartsWith (s pat : String) : Bool :=
  pat.data.isPrefixOf s.data

/-- The verifyClient callback of the demo WebSocket server: accept when the
Authorization header is present, truthy (non-empty), and starts with the
string "Bearer ". -/
def verifyClient (authHeader : Option String) : Bool :=
  match authHeader with
  | none => false
  | some h => !h.isEmpty && jsStartsWith h "Bearer "

theorem jsStartsWith_iff (s pat : String) :
    jsStartsWith s pat = true ↔ pat.data <+: s.data := by
  simp [jsStartsWith, List.isPrefixOf_iff_prefix]

theorem verifyClient_some (h : String) :
    verifyClient (some h) = jsStartsWith h "Bearer " := by
  by_cases hh : h = ""
  · subst hh; decide
  · have hE : h.isEmpty = false := by
      cases hE2 : h.isEmpty
      · rfl
      · exact absurd ((String.isEmpty_iff h).mp hE2) hh
    simp [verifyClient, hE]

/-- C10: the broker accepts a WebSocket connection if and only if the request
carries an Authorization header starting with "Bearer "; the token after the
prefix is never compared against any configured API key, so in particular the
concrete header "Bearer invalid-key", and more generally any bearer token,
authenticates successfully. -/
theorem websocket_auth_bearer_C10 :
    (∀ authHeader : Option String,
      verifyClient authHeader = true ↔
        ∃ h, authHeader = some h ∧ jsStartsWith h "Bearer " = true) ∧
    verifyClient (some "Bearer invalid-key") = true ∧
    (∀ token : String, verifyClient (some ("Bearer " ++ token)) = true) := by
  refine ⟨?_, by decide, ?_⟩
  · intro authHeader
    cases authHeader with
    | none => simp [verifyClient]
    | some h =>
      rw [verifyClient_some]
      constructor
      · intro hp
        exact ⟨h, rfl, hp⟩
      · rintro ⟨h₂, heq, hp⟩
        have h3 : h = h₂ := by injection heq
        subst h3
        exact hp
  · intro token
    rw [verifyClient_some, jsStartsWith_iff, String.data_append]
    exact List.prefix_append _ _

/-- C6: the Result contract. Ok v satisfies isOk with value v and unwrapOr
returns v; Err e satisfies isErr with error e and unwrapOr returns the
default; map rewrites only the success value, mapErr only the error, and
andThen short-circuits on Err. Every operation is a total function, so no
operation can throw. -/
theorem result_contract_C6 (α β ε ε₂ : Type) (v : α) (e : ε) (dflt : α)
    (f : α → β) (g : ε → ε₂) (k : α → MResult β ε) :
    (MResult.ok (ε := ε) v).isOk = true ∧
    (MResult.ok (ε := ε) v).valueField = some v ∧
    (MResult.ok (ε := ε) v).unwrapOr dflt = v ∧
    (MResult.err (α := α) e).isErr = true ∧
    (MResult.err (α := α) e).errorField = some e ∧
    (MResult.err (α := α) e).unwrapOr dflt = dflt ∧
    (MResult.ok (ε := ε) v).map f = MResult.ok (f v) ∧
    (MResult.err (α := α) e).map f = MResult.err e ∧
    (MResult.ok (ε := ε) v).mapErr g = MResult.ok v ∧
    (MResult.err (α := α) e).mapErr g = MResult.err (g e) ∧
    (MResult.ok (ε := ε) v).andThen k = k v ∧
    (MResult.err (α := α) e).andThen k = MResult.err e := by
  refine ⟨rfl, rfl, rfl, rfl, rfl, rfl, rfl, rfl, rfl, rfl, rfl, rfl⟩

/-!
## Sequential coordinator pipeline (MAPLECoordinator, src/unnamed/part_006)

executeSequentialPipeline (and the identical executeSequentialCoordination)
walks the configured agents in order; each iteration merges the agent's task
parameters with the data produced so far (JavaScript object spread), calls
client.executeTask, threads the Ok value into the next step, and on the first
Err throws immediately with "Agent <id> failed: <error>". The embedding also
records the trace of client calls the run performs, so that statements about
what did and did not execute (forward steps, compensations) are expressible.
-/

/-- A JSON object as an association list of string keys and values, the shape
the pipeline threads between steps. -/
abbrev JObj := List (String × String)

/-- JavaScript object spread of two objects: keys of the first in order, with
the second object's value where overridden, then the second object's new keys. -/
def spreadMerge (a b : JObj) : JObj :=
  a.map (fun p =>
    match b.find? (fun q => q.1 == p.1) with
    | some q => (p.1, q.2)
    | none => p)
  ++ b.filter (fun q => !a.any (fun p => p.1 == q.1))

/-- One agent entry of the node's agents collection. -/
structure AgentConfig where
  agentId : String
  taskParameters : JObj
  priority : String
deriving Repr, DecidableEq

/-- An interaction the pipeline performs against the MAPLE client. -/
inductive ClientCall where
  | executeTask (agentId : String) (task : JObj) (priority : String)
deriving Repr, DecidableEq

/-- The client oracle: what client.executeTask returns for a given agent,
task object and priority. -/
abbrev TaskClient := String → JObj → String → MResult JObj String

/-- The agent a call addresses. -/
def callAgent : ClientCall → String
  | .executeTask a _ _ => a

/-- Whether the client answers a call with Ok. -/
def callOk (client : TaskClient) : ClientCall → Bool
  | .executeTask a t p => (client a t p).isOk

/-- Prefixing a step result onto a pipeline outcome (the push into the
results array on the Ok branch). -/
def pushStep (agentId : String) (v : JObj) :
    Except String (List (String × JObj) × JObj) →
      Except String (List (String × JObj) × JObj)
  | .ok (results, finalData) => .ok ((agentId, v) :: results, finalData)
  | .error e => .error e

/-- The error thrown when a step fails. -/
def stepFailMsg (agentId e : String) : String :=
  "Agent " ++ agentId ++ " failed: " ++ e

/-- MAPLECoordinator.executeSequentialPipeline: run the agents in order,
threading data, with the trace of client calls performed. -/
def executeSequentialPipeline (client : TaskClient) :
    List AgentConfig → JObj →
      Except String (List (String × JObj) × JObj) × List ClientCall
  | [], currentData => (Except.ok ([], currentData), [])
  | cfg :: rest, currentData =>
    let mergedTask := spreadMerge cfg.taskParameters currentData
    match client cfg.agentId mergedTask cfg.priority with
    | .ok v =>
      let next := executeSequentialPipeline client rest v
      (pushStep cfg.agentId v next.1,
       ClientCall.executeTask cfg.agentId mergedTask cfg.priority :: next.2)
    | .err e =>
      (Except.error (stepFailMsg cfg.agentId e),
       [ClientCall.executeTask cfg.agentId mergedTask cfg.priority])

/-- Steps completed by a run: the leading client calls answered Ok. -/
def stepsCompleted (client : TaskClient) (agents : List AgentConfig)
    (input : JObj) : Nat :=
  (((executeSequentialPipeline client agents input).2).takeWhile
    (callOk client)).length

/-- Claim C1 as stated, over the embedded pipeline: whenever a run fails
irrecoverably after exactly k completed steps, the coordinator performs k
further compensating interactions, one per completed step, addressed to the
completed agents in reverse completion order (so the trace holds the k forward
calls, the failing call, then the k compensations). -/
def claimC1 : Prop :=
  ∀ (client : TaskClient) (agents : List AgentConfig) (input : JObj)
    (e : String),
    (executeSequentialPipeline client agents input).1 = Except.error e →
    ∀ k, stepsCompleted client agents input = k →
      (executeSequentialPipeline client agents input).2.length = (k + 1) + k ∧
      ((executeSequentialPipeline client agents input).2.drop (k + 1)).map
          callAgent =
        (((executeSequentialPipeline client agents input).2.take k).map
          callAgent).reverse

/-- The two-step configuration used to refute claim C1. -/
def cexAgents : List AgentConfig :=
  [{ agentId := "agent-1", taskParameters := [], priority := "MEDIUM" },
   { agentId := "agent-2", taskParameters := [], priority := "MEDIUM" }]

/-- A client under which agent-1 succeeds and agent-2 fails irrecoverably. -/
def cexClient : TaskClient := fun agentId _ _ =>
  if agentId = "agent-1" then .ok [("step", "one")] else .err "task failed"

/-- C1 counterexample: a two-step run under cexClient fails after exactly one
completed step, yet the trace holds only the two forward calls: the coordinator
runs no compensating action at all (it throws immediately), so the claimed
one-compensation trace length of three is violated. -/
theorem pipeline_no_compensation_cex_C1 : ¬ claimC1 := by
  intro hclaim
  have h := hclaim cexClient cexAgents []
    (stepFailMsg "agent-2" "task failed") rfl 1 rfl
  have hlen : (executeSequentialPipeline cexClient cexAgents []).2.length = 2 :=
    rfl
  omega

/-- C1 amended: on an irrecoverable step failure the coordinator aborts
immediately by raising the failing agent's error; the trace is exactly the
completed forward calls followed by the failing call, so no compensating
action runs for the completed steps (and nothing at all runs after the
failure). -/
theorem pipeline_failfast_C1 (client : TaskClient) :
    ∀ (agents : List AgentConfig) (input : JObj) (e : String),
      (executeSequentialPipeline client agents input).1 = Except.error e →
      (executeSequentialPipeline client agents input).2.length =
          stepsCompleted client agents input + 1 ∧
      (executeSequentialPipeline client agents input).2.drop
          (stepsCompleted client agents input + 1) = [] ∧
      ∃ c, (executeSequentialPipeline client agents input).2.getLast? = some c ∧
        callOk client c = false := by
  intro agents
  induction agents with
  | nil =>
    intro input e herr
    simp [executeSequentialPipeline] at herr
  | cons cfg rest ih =>
    intro input e herr
    simp only [executeSequentialPipeline] at herr ⊢
    cases hcl : client cfg.agentId (spreadMerge cfg.taskParameters input)
        cfg.priority with
    | ok v =>
      rw [hcl] at herr
      simp only at herr
      have herr2 : (executeSequentialPipeline client rest v).1 =
          Except.error e := by
        revert herr
        cases hrec : (executeSequentialPipeline client rest v).1 with
        | ok p =>
          cases p
          simp [pushStep]
        | error e2 =>
          simp [pushStep]
      obtain ⟨ihlen, ihdrop, c, hc, hcok⟩ := ih v e herr2
      have hsc : stepsCompleted client (cfg :: rest) input =
          stepsCompleted client rest v + 1 := by
        simp [stepsCompleted, executeSequentialPipeline, hcl, List.takeWhile,
          callOk, MResult.isOk]
      simp only [hcl]
      refine ⟨?_, ?_, ?_⟩
      · simp only [hsc, List.length_cons]
        omega
      · rw [hsc]
        simpa using ihdrop
      · refine ⟨c, ?_, hcok⟩
        rw [List.getLast?_cons]
        have hne : (executeSequentialPipeline client rest v).2 ≠ [] := by
          intro hnil
          rw [hnil] at ihlen
          simp at ihlen
        simp [List.getLast?_eq_none_iff] at hc ⊢
        cases hcase : (executeSequentialPipeline client rest v).2.getLast? with
        | none =>
          rw [List.getLast?_eq_none_iff] at hcase
          exact absurd hcase hne
        | some c2 =>
          rw [hcase] at hc
          cases hc
          simp [Option.getD, hcase]
    | err eStep =>
      rw [hcl] at herr
      have hsc : stepsCompleted client (cfg :: rest) input = 0 := by
        simp [stepsCompleted, executeSequentialPipeline, hcl, List.takeWhile,
          callOk, MResult.isOk]
      simp only [hcl, hsc]
      refine ⟨rfl, rfl, ?_⟩
      refine ⟨ClientCall.executeTask cfg.agentId
        (spreadMerge cfg.taskParameters input) cfg.priority, rfl, ?_⟩
      simp [callOk, hcl, MResult.isOk]

/-- C1 amended claim witness: the fail-fast theorem applied to the concrete
two-step failing run. -/
theorem pipeline_failfast_C1_witness :
    (executeSequentialPipeline cexClient cexAgents []).2.length =
        stepsCompleted cexClient cexAgents [] + 1 ∧
    (executeSequentialPipeline cexClient cexAgents []).2.drop
        (stepsCompleted cexClient cexAgents [] + 1) = [] ∧
    ∃ c, (executeSequentialPipeline cexClient cexAgents []).2.getLast? =
        some c ∧ callOk cexClient c = false :=
  pipeline_failfast_C1 cexClient cexAgents []
    (stepFailMsg "agent-2" "task failed") rfl

/-- C8: if the sequential pipeline completes (returns a final result), then
every declared step was called exactly once, in declaration order, every call
was answered Ok by the client, and the trace holds nothing besides those
forward calls: in particular no compensation action ran. -/
theorem pipeline_completed_C8 (client : TaskClient) :
    ∀ (agents : List AgentConfig) (input : JObj)
      (results : List (String × JObj)) (finalData : JObj),
      (executeSequentialPipeline client agents input).1 =
          Except.ok (results, finalData) →
      results.length = agents.length ∧
      (executeSequentialPipeline client agents input).2.length =
          agents.length ∧
      (executeSequentialPipeline client agents input).2.map callAgent =
          agents.map (fun cfg => cfg.agentId) ∧
      ∀ c ∈ (executeSequentialPipeline client agents input).2,
        callOk client c = true := by
  intro agents
  induction agents with
  | nil =>
    intro input results finalData hok
    simp only [executeSequentialPipeline] at hok ⊢
    have : results = [] := by
      cases hok
      rfl
    subst this
    simp
  | cons cfg rest ih =>
    intro input results finalData hok
    simp only [executeSequentialPipeline] at hok ⊢
    cases hcl : client cfg.agentId (spreadMerge cfg.taskParameters input)
        cfg.priority with
    | ok v =>
      rw [hcl] at hok
      simp only at hok
      cases hrec : (executeSequentialPipeline client rest v).1 with
      | ok p =>
        obtain ⟨rs, fd⟩ := p
        rw [hrec] at hok
        simp only [pushStep] at hok
        have hinj : (cfg.agentId, v) :: rs = results ∧ fd = finalData := by
          injection hok with h2
          injection h2 with ha hb
          exact ⟨ha, hb⟩
        obtain ⟨ih1, ih2, ih3, ih4⟩ := ih v rs fd hrec
        simp only [hcl]
        refine ⟨by rw [← hinj.1]; simp [ih1], by simp [ih2],
          by simp [callAgent, ih3], ?_⟩
        intro c hc
        rcases List.mem_cons.mp hc with hc1 | hc2
        · subst hc1
          simp [callOk, hcl, MResult.isOk]
        · exact ih4 c hc2
      | error e2 =>
        rw [hrec] at hok
        simp [pushStep] at hok
    | err eStep =>
      rw [hcl] at hok
      simp at hok

/-- C8 witness: the completion theorem applied to a concrete two-step run in
which both agents succeed. -/
theorem pipeline_completed_C8_witness :
    ([("agent-1", [("done", "agent-1")]), ("agent-2", [("done", "agent-2")])] :
        List (String × JObj)).length = cexAgents.length ∧
    (executeSequentialPipeline (fun agentId _ _ => .ok [("done", agentId)])
        cexAgents []).2.length = cexAgents.length ∧
    (executeSequentialPipeline (fun agentId _ _ => .ok [("done", agentId)])
        cexAgents []).2.map callAgent =
      cexAgents.map (fun cfg => cfg.agentId) ∧
    ∀ c ∈ (executeSequentialPipeline
        (fun agentId _ _ => .ok [("done", agentId)]) cexAgents []).2,
      callOk (fun agentId _ _ => .ok [("done", agentId)]) c = true := by
  have h := pipeline_completed_C8 (fun agentId _ _ => .ok [("done", agentId)])
    cexAgents []
    [("agent-1", [("done", "agent-1")]), ("agent-2", [("done", "agent-2")])]
    [("done", "agent-2")] rfl
  exact ⟨rfl, h.2.1, h.2.2.1, h.2.2.2⟩

/-!
## Broker resource allocation endpoint

The POST /resources/allocate handler of the fallback HTTP bridge
(startFallbackBridge in src/n8n-integration/demo/start-maple-broker.js) and
the identical handler of the mock Python bridge (startMockPythonBridge in
src/n8n-integration/demo/launch-demo.js) respond to every request with a
success body: a fresh allocationId, status "allocated", allocated set to the
request itself, availableUntil one hour from now, a random cost, and the
requested pool (default "default"). Neither handler consults any record of
free capacity, neither keeps any record of what it granted, and neither has
an error branch. The random cost and the current time enter as parameters.
-/

/-- A resource allocation request as the handler reads it from the body. -/
structure AllocRequest where
  compute : Nat
  pool : Option String
deriving Repr, DecidableEq

/-- The success body the allocate handler sends. -/
structure AllocResponse where
  allocationId : String
  status : String
  allocated : AllocRequest
  availableUntil : Nat
  cost : Nat
  pool : String
deriving Repr, DecidableEq

/-- The structured error shape of the spec error taxonomy, for stating what
the handler would have to return on failure. -/
structure StructuredError where
  errorType : String
  message : String
  recoverable : Bool
  recoveryAction : Option String
deriving Repr, DecidableEq

/-- The allocate handler body: grant the request in full, unconditionally. -/
def fallbackAllocate (allocationId : String) (now cost : Nat)
    (req : AllocRequest) : AllocResponse :=
  { allocationId := allocationId
    status := "allocated"
    allocated := req
    availableUntil := now + 3600000
    cost := cost
    pool := req.pool.getD "default" }

/-- The allocate endpoint as a fallible operation: the handler always answers
with the success body and has no error branch. -/
def allocateEndpoint (allocationId : String) (now cost : Nat)
    (req : AllocRequest) : MResult AllocResponse StructuredError :=
  .ok (fallbackAllocate allocationId now cost req)

/-- Compute cores granted by a sequence of allocate calls. -/
def grantedComputeSum (allocationId : String) (now cost : Nat)
    (reqs : List AllocRequest) : Nat :=
  (reqs.map (fun r =>
    (fallbackAllocate allocationId now cost r).allocated.compute)).sum

/-- The only free-capacity figure the fallback bridge declares: the agent
status endpoints report available cpu 8. -/
def bridgeAvailableCpu : Nat := 8

/-- Claim C2 as stated, over the embedded handler: what allocate grants never
exceeds the declared capacity, for any sequence of allocate calls. -/
def claimC2 : Prop :=
  ∀ (allocationId : String) (now cost : Nat) (reqs : List AllocRequest),
    grantedComputeSum allocationId now cost reqs ≤ bridgeAvailableCpu

/-- C2 counterexample: two allocate calls for 8 cores each against the bridge
whose declared free capacity is 8 cores are both granted in full, so the sum
of grants reaches 16 and the conservation bound fails; no conservation check
exists in either handler. -/
theorem allocate_conservation_cex_C2 : ¬ claimC2 := by
  intro hclaim
  have h := hclaim "alloc-1" 0 5
    [{ compute := 8, pool := none }, { compute := 8, pool := none }]
  have h16 : grantedComputeSum "alloc-1" 0 5
      [{ compute := 8, pool := none }, { compute := 8, pool := none }] = 16 :=
    rfl
  rw [h16] at h
  simp [bridgeAvailableCpu] at h

/-- C2 amended: the allocate handlers grant every request in full with status
"allocated", regardless of how the requested amount compares with any free
capacity, and perform no conservation check of any kind. -/
theorem allocate_grants_full_C2 (allocationId : String) (now cost : Nat)
    (req : AllocRequest) :
    (fallbackAllocate allocationId now cost req).allocated = req ∧
    (fallbackAllocate allocationId now cost req).status = "allocated" ∧
    grantedComputeSum allocationId now cost [req] = req.compute := by
  refine ⟨rfl, rfl, ?_⟩
  simp [grantedComputeSum, fallbackAllocate]

/-- Claim C5 as stated, over the embedded endpoint: a request whose compute
need exceeds the free capacity fails with a recoverable RESOURCE_UNAVAILABLE
structured error whose recovery action is RETRY_LATER or NEGOTIATE. -/
def claimC5 : Prop :=
  ∀ (freeCapacity : Nat) (allocationId : String) (now cost : Nat)
    (req : AllocRequest),
    freeCapacity < req.compute →
    ∃ err : StructuredError,
      allocateEndpoint allocationId now cost req = .err err ∧
      err.errorType = "RESOURCE_UNAVAILABLE" ∧
      err.recoverable = true ∧
      (err.recoveryAction = some "RETRY_LATER" ∨
        err.recoveryAction = some "NEGOTIATE")

/-- C5 counterexample: a request for 4 cores when 0 are free is still
answered with the success body, never with a RESOURCE_UNAVAILABLE error: the
handler has no error branch and ignores deadline and timeout entirely. -/
theorem allocate_error_cex_C5 : ¬ claimC5 := by
  intro hclaim
  obtain ⟨err, herr, -⟩ := hclaim 0 "alloc-1" 0 5
    { compute := 4, pool := none } (by decide)
  simp [allocateEndpoint] at herr

/-- C5 amended: for every request, including one whose capacity need cannot be
met by its deadline, the allocate endpoint immediately returns the success
allocation granting the request in full; it never returns an error and never
waits. -/
theorem allocate_never_errs_C5 (allocationId : String) (now cost : Nat)
    (req : AllocRequest) :
    ∃ resp : AllocResponse,
      allocateEndpoint allocationId now cost req = .ok resp ∧
      resp.status = "allocated" ∧
      resp.allocated = req := by
  exact ⟨fallbackAllocate allocationId now cost req, rfl, rfl, rfl⟩

/-!
## Resource manager node operations (MAPLEResourceManager, launch.js)

requestNegotiation sends one RESOURCE_NEGOTIATE message whose payload carries
the flexibility (default "moderate") and the acceptableTradeoffs list (default
containing wait_time) verbatim; on a client Ok it returns the client value,
and on a client Err it returns a hard-coded mock negotiation object with
status "completed" and random negotiated terms. monitorUsage sends one
RESOURCE_MONITOR message; on a client Ok it returns the usage from the reply
(or random mock numbers when the reply has none), and on a client Err it
returns random mock usage with an explanatory note, never the error. The
random numbers enter as parameters.
-/

/-- The negotiationParams.parameter object of the node: optional flexibility
and optional tradeoffs list. -/
structure NegoParams where
  flexibility : Option String
  tradeoffs : Option (List String)
deriving Repr, DecidableEq

/-- The payload of the RESOURCE_NEGOTIATE message the node sends. -/
structure NegotiationPayload where
  flexibility : String
  acceptableTradeoffs : List String
deriving Repr, DecidableEq

/-- Build the negotiation payload: defaults "moderate" and a singleton
wait_time tradeoff list when parameters are absent. -/
def negotiationPayload (params : Option NegoParams) : NegotiationPayload :=
  match params with
  | none => { flexibility := "moderate", acceptableTradeoffs := ["wait_time"] }
  | some p =>
    { flexibility := p.flexibility.getD "moderate"
      acceptableTradeoffs := p.tradeoffs.getD ["wait_time"] }

/-- The negotiatedTerms object of the mock negotiation result. -/
structure NegotiatedTerms where
  costReduction : Nat
  waitTimeMinutes : Nat
  guaranteedResources : Nat
deriving Repr, DecidableEq

/-- The mock negotiation object the node fabricates on a client error. -/
structure MockNegotiation where
  status : String
  originalPriority : String
  originalFlexibility : String
  negotiatedTerms : NegotiatedTerms
deriving Repr, DecidableEq

/-- Build the mock negotiation result from the request priority and payload
flexibility; the three random draws enter as parameters, scaled as the source
scales Math.random. -/
def mockNegotiation (priority flexibility : String) (r₁ r₂ r₃ : Nat) :
    MockNegotiation :=
  { status := "completed"
    originalPriority := priority
    originalFlexibility := flexibility
    negotiatedTerms :=
      { costReduction := r₁ % 15
        waitTimeMinutes := r₂ % 10 + 2
        guaranteedResources := r₃ % 30 + 70 } }

/-- What requestNegotiation hands back: either the client reply or the mock
object built on a client error. -/
inductive NegotiationOutcome (α : Type) where
  | fromClient (value : α)
  | mockData (m : MockNegotiation)
deriving Repr, DecidableEq

/-- MAPLEResourceManager.requestNegotiation: one message, and on a client
error the fabricated mock success instead of the error. -/
def requestNegotiation (send : String → NegotiationPayload → MResult α String)
    (priority : String) (params : Option NegoParams) (r₁ r₂ r₃ : Nat) :
    NegotiationOutcome α :=
  let payload := negotiationPayload params
  match send priority payload with
  | .ok v => .fromClient v
  | .err _ => .mockData (mockNegotiation priority payload.flexibility r₁ r₂ r₃)

/-- Claim C3 as stated, over the embedded node: when the request cannot be
satisfied (the client answers Err) and the flexibility is strict, no
relaxation is attempted and the call fails fast, so the node never hands back
relaxed mock terms. The claimed wait_time, duration, cost, performance search
order has no counterpart at all in the node, which forwards the tradeoff list
verbatim in a single message; the refutable content is the strict clause. -/
def claimC3 : Prop :=
  ∀ (α : Type) (send : String → NegotiationPayload → MResult α String)
    (priority : String) (params : Option NegoParams) (r₁ r₂ r₃ : Nat),
    (negotiationPayload params).flexibility = "strict" →
    (send priority (negotiationPayload params)).isErr = true →
    ∀ m : MockNegotiation,
      requestNegotiation send priority params r₁ r₂ r₃ ≠ .mockData m

/-- C3 counterexample: a strict request whose client call fails is answered
with the fabricated mock negotiation (status "completed", guaranteed resources
70 percent), not with a fast failure: strictness is forwarded in the payload
and otherwise ignored. -/
theorem negotiation_strict_cex_C3 : ¬ claimC3 := by
  intro hclaim
  exact hclaim Unit (fun _ _ => .err "cannot satisfy") "MEDIUM"
    (some { flexibility := some "strict", tradeoffs := some ["wait_time"] })
    0 0 0 rfl rfl (mockNegotiation "MEDIUM" "strict" 0 0 0) rfl

/-- C3 amended: requestNegotiation performs no tradeoff search and no
feasibility check: it sends the flexibility and tradeoff list verbatim in one
message, and whenever the client answers Err it returns the fixed mock
negotiation success determined by priority, flexibility and the random draws
alone, for strict requests exactly as for flexible ones and independently of
the acceptableTradeoffs list. -/
theorem negotiation_mock_C3 (α : Type)
    (send : String → NegotiationPayload → MResult α String)
    (priority : String) (p₁ p₂ : Option NegoParams) (r₁ r₂ r₃ : Nat)
    (h₁ : (send priority (negotiationPayload p₁)).isErr = true)
    (h₂ : (send priority (negotiationPayload p₂)).isErr = true)
    (hf : (negotiationPayload p₁).flexibility =
      (negotiationPayload p₂).flexibility) :
    requestNegotiation send priority p₁ r₁ r₂ r₃ =
      .mockData (mockNegotiation priority
        (negotiationPayload p₁).flexibility r₁ r₂ r₃) ∧
    requestNegotiation send priority p₁ r₁ r₂ r₃ =
      requestNegotiation send priority p₂ r₁ r₂ r₃ := by
  obtain ⟨e₁, he₁⟩ := (MResult.isErr_eq_true_iff _).mp h₁
  obtain ⟨e₂, he₂⟩ := (MResult.isErr_eq_true_iff _).mp h₂
  constructor
  · simp [requestNegotiation, he₁]
  · simp [requestNegotiation, he₁, he₂, hf]

/-- Concrete strict negotiation parameters with the wait_time tradeoff. -/
def strictWaitParams : Option NegoParams :=
  some { flexibility := some "strict", tradeoffs := some ["wait_time"] }

/-- Concrete strict negotiation parameters with other tradeoffs. -/
def strictPerfParams : Option NegoParams :=
  some { flexibility := some "strict", tradeoffs := some ["performance", "cost"] }

/-- A client that cannot satisfy any negotiation request. -/
def failingNegoSend : String → NegotiationPayload → MResult Unit String :=
  fun _ _ => .err "cannot satisfy"

/-- C3 amended claim witness: strict parameters with two different tradeoff
lists and a failing client both produce the same fixed mock success. -/
theorem negotiation_mock_C3_witness :
    requestNegotiation failingNegoSend "MEDIUM" strictWaitParams 3 4 5 =
      .mockData (mockNegotiation "MEDIUM"
        (negotiationPayload strictWaitParams).flexibility 3 4 5) ∧
    requestNegotiation failingNegoSend "MEDIUM" strictWaitParams 3 4 5 =
      requestNegotiation failingNegoSend "MEDIUM" strictPerfParams 3 4 5 :=
  negotiation_mock_C3 Unit failingNegoSend "MEDIUM" strictWaitParams
    strictPerfParams 3 4 5 rfl rfl rfl

/-- Usage figures of a monitoring reply. -/
structure UsageData where
  cpu : Nat
  memory : Nat
  bandwidth : Nat
deriving Repr, DecidableEq

/-- The object monitorUsage hands back to the caller. -/
structure MonitorResponse where
  allocationId : String
  usage : UsageData
  note : Option String
deriving Repr, DecidableEq

/-- The note attached when monitoring data is fabricated. -/
def mockUsageNote : String :=
  "Mock usage data - monitoring not yet implemented"

/-- MAPLEResourceManager.monitorUsage: one RESOURCE_MONITOR message; the reply
usage when present, random mock numbers when absent, and on a client error
random mock numbers with the note, never the error itself. -/
def monitorUsage (send : String → MResult (Option UsageData) String)
    (allocationId : String) (mock : UsageData) :
    MResult MonitorResponse String :=
  match send allocationId with
  | .ok v =>
    .ok { allocationId := allocationId, usage := v.getD mock, note := none }
  | .err _ =>
    .ok { allocationId := allocationId, usage := mock,
          note := some mockUsageNote }

/-- Claim C9 as stated, over the embedded node: when the underlying client
call returns Err, the error is classified and returned to the caller. -/
def claimC9 : Prop :=
  ∀ (send : String → MResult (Option UsageData) String)
    (allocationId : String) (mock : UsageData) (e : String),
    send allocationId = .err e →
    (monitorUsage send allocationId mock).isErr = true

/-- C9 counterexample: with the client failing, monitorUsage returns a
fabricated success carrying random usage numbers and a mock-data note; the
error is silently swallowed, never surfaced. -/
theorem monitor_swallow_cex_C9 : ¬ claimC9 := by
  intro hclaim
  have h := hclaim (fun _ => .err "bridge down") "alloc-1"
    { cpu := 10, memory := 20, bandwidth := 30 } "bridge down" rfl
  simp [monitorUsage, MResult.isErr] at h

/-- C9 amended: monitorUsage never returns the client error: on a client Err
it replaces the error with mock usage data marked by an explanatory note (as
do optimizeAllocation, checkAvailability and requestNegotiation); only
allocateResources and releaseResources propagate client errors. -/
theorem monitor_mock_C9 (send : String → MResult (Option UsageData) String)
    (allocationId : String) (mock : UsageData) (e : String)
    (h : send allocationId = .err e) :
    monitorUsage send allocationId mock =
      .ok { allocationId := allocationId, usage := mock,
            note := some mockUsageNote } ∧
    (monitorUsage send allocationId mock).isErr = false := by
  constructor
  · simp [monitorUsage, h]
  · simp [monitorUsage, h, MResult.isErr]

/-- C9 amended claim witness: the mock-substitution theorem applied to the
concrete failing client. -/
theorem monitor_mock_C9_witness :
    monitorUsage (fun _ => .err "bridge down") "alloc-1"
        { cpu := 10, memory := 20, bandwidth := 30 } =
      .ok { allocationId := "alloc-1",
            usage := { cpu := 10, memory := 20, bandwidth := 30 },
            note := some mockUsageNote } ∧
    (monitorUsage (fun _ => .err "bridge down") "alloc-1"
        { cpu := 10, memory := 20, bandwidth := 30 }).isErr = false :=
  monitor_mock_C9 (fun _ => .err "bridge down") "alloc-1"
    { cpu := 10, memory := 20, bandwidth := 30 } "bridge down" rfl

/-!
## Resource release (MAPLEResourceManager.releaseResources)

releaseResources sends one RESOURCE_RELEASE message and, when the send
succeeds, returns a released status for the given allocation id; a client
error is propagated. The demo WebSocket server (launch-demo.js) answers every
received message: RESOURCE_RELEASE is not in its response-type map, so it gets
the generic RESPONSE reply with an acknowledged payload, computed without
consulting or updating any allocation record: the server keeps none.
-/

/-- Response message type map of the demo WebSocket server
(MAPLEDemoLauncher.getResponseMessageType). -/
def getResponseMessageType (requestType : String) : String :=
  if requestType = "AGENT_CREATE" then "AGENT_CREATED"
  else if requestType = "TASK_EXECUTE" then "TASK_RESULT"
  else if requestType = "AGENT_STATUS_REQUEST" then "AGENT_STATUS_RESPONSE"
  else if requestType = "RESOURCE_REQUEST" then "RESOURCE_ALLOCATED"
  else if requestType = "WORKFLOW_CREATE" then "WORKFLOW_CREATED"
  else if requestType = "WORKFLOW_EXECUTE" then "WORKFLOW_RESULT"
  else if requestType = "HEARTBEAT" then "HEARTBEAT_RESPONSE"
  else "RESPONSE"

/-- The payload shapes of MAPLEDemoLauncher.generateMockResponse. -/
inductive MockPayload where
  | agentCreated
  | taskResult
  | resourceAllocated (allocationId : String)
  | acknowledged
deriving Repr, DecidableEq

/-- MAPLEDemoLauncher.generateMockResponse: the reply payload for a message
type; every type not specially handled is acknowledged. -/
def generateMockResponse (messageType allocationId : String) : MockPayload :=
  if messageType = "AGENT_CREATE" then .agentCreated
  else if messageType = "TASK_EXECUTE" then .taskResult
  else if messageType = "RESOURCE_REQUEST" then .resourceAllocated allocationId
  else .acknowledged

/-- Modelled from the spec: MAPLEClient.sendMessage lives in
lib/MAPLEClient.js, which is not under src; per the interface contract every
channel operation returns Result, and against the demo WebSocket server,
which replies to every received message, a sent message yields Ok of the
server reply. -/
def sendToDemoServer (messageType allocationId : String) :
    MResult MockPayload String :=
  .ok (generateMockResponse messageType allocationId)

/-- The object releaseResources hands back. -/
structure ReleaseResponse where
  allocationId : String
  status : String
deriving Repr, DecidableEq

/-- MAPLEResourceManager.releaseResources against the demo server: send one
RESOURCE_RELEASE message and report the released status. -/
def releaseResources (allocationId : String) :
    MResult ReleaseResponse String :=
  match sendToDemoServer "RESOURCE_RELEASE" allocationId with
  | .ok _ => .ok { allocationId := allocationId, status := "released" }
  | .err e => .err e

/-- Release as a step over the broker state: the demo server's message
handler computes a reply and stores nothing, so whatever state the broker
holds passes through untouched. -/
def releaseStep (σ : Type) (allocationId : String) (s : σ) :
    MResult ReleaseResponse String × σ :=
  (releaseResources allocationId, s)

/-- C4: releasing an allocation id twice is equivalent to releasing it once:
both calls return the released success (the demo broker tracks no allocation
status, so an already released or expired id behaves identically), and the
second call leaves the broker state exactly as the first left it. -/
theorem release_idempotent_C4 (σ : Type) (s : σ) (allocationId : String) :
    releaseStep σ allocationId (releaseStep σ allocationId s).2 =
      releaseStep σ allocationId s ∧
    (releaseStep σ allocationId s).1 =
      .ok { allocationId := allocationId, status := "released" } ∧
    (releaseStep σ allocationId s).2 = s := by
  exact ⟨rfl, rfl, rfl⟩

/-!
## Agent retry loop (MAPLEAgent.execute, launch.js)

For each input item, MAPLEAgent.execute runs the selected operation inside a
retry loop: attempts starts at 0 and the loop runs while attempts is at most
maxRetryAttempts. A successful attempt records its result and leaves the loop.
A failed attempt increments attempts; when error recovery is disabled or the
budget is exhausted the loop fails with the error just caught (the last
attempt's error), otherwise it sleeps min(1000 * 2^(attempts-1), 5000)
milliseconds and retries the same operation. Items already completed are never
re-entered: the loop is per item. The embedding takes the operation as a
function of the attempt number and records the result, the number of attempts
performed, and the backoff delays slept.
-/

/-- Backoff delay in milliseconds before the retry that will be attempt number
attempts: min(1000 * 2^(attempts - 1), 5000). -/
def retryDelayMs (attempts : Nat) : Nat :=
  min (1000 * 2 ^ (attempts - 1)) 5000

/-- Outcome of the per-item retry loop: final result, attempts performed, and
the backoff delays slept between attempts. -/
structure RetryOutcome (α ε : Type) where
  result : Except ε α
  attemptsUsed : Nat
  delays : List Nat

/-- The per-item retry loop of MAPLEAgent.execute, entered at attempt k. -/
def runRetry (op : Nat → Except ε α) (enableErrorRecovery : Bool)
    (maxRetryAttempts : Nat) (k : Nat) : RetryOutcome α ε :=
  match op k with
  | .ok v => { result := .ok v, attemptsUsed := k + 1, delays := [] }
  | .error e =>
    if enableErrorRecovery = true ∧ k + 1 ≤ maxRetryAttempts then
      { result :=
          (runRetry op enableErrorRecovery maxRetryAttempts (k + 1)).result
        attemptsUsed :=
          (runRetry op enableErrorRecovery maxRetryAttempts (k + 1)).attemptsUsed
        delays := retryDelayMs (k + 1) ::
          (runRetry op enableErrorRecovery maxRetryAttempts (k + 1)).delays }
    else { result := .error e, attemptsUsed := k + 1, delays := [] }
termination_by maxRetryAttempts + 1 - k
decreasing_by all_goals omega

/-- The item loop: each input item gets its own retry loop from attempt 0. -/
def processItems (ops : List (Nat → Except ε α)) (enableErrorRecovery : Bool)
    (maxRetryAttempts : Nat) : List (RetryOutcome α ε) :=
  ops.map (fun op => runRetry op enableErrorRecovery maxRetryAttempts 0)

theorem runRetry_allfail (op : Nat → Except ε α) (maxR : Nat) (es : Nat → ε)
    (hall : ∀ j, j ≤ maxR → op j = .error (es j)) :
    ∀ (n k : Nat), k + n = maxR →
      runRetry op true maxR k =
        { result := .error (es maxR), attemptsUsed := maxR + 1,
          delays := (List.range n).map (fun i => retryDelayMs (k + 1 + i)) } := by
  intro n
  induction n with
  | zero =>
    intro k hk
    have hk0 : k = maxR := by omega
    rw [hk0, runRetry, hall maxR le_rfl]
    have hcond : ¬ (true = true ∧ maxR + 1 ≤ maxR) := by omega
    simp [hcond]
  | succ n ih =>
    intro k hk
    have hkle : k ≤ maxR := by omega
    have hdel : retryDelayMs (k + 1) ::
        (List.range n).map (fun i => retryDelayMs (k + 1 + 1 + i)) =
        (List.range (n + 1)).map (fun i => retryDelayMs (k + 1 + i)) := by
      rw [List.range_succ_eq_map, List.map_cons, List.map_map]
      congr 1
      apply List.map_congr_left
      intro a _
      simp only [Function.comp]
      congr 1
      omega
    have hcond : (true = true ∧ k + 1 ≤ maxR) := by
      exact ⟨rfl, by omega⟩
    rw [runRetry, hall k hkle]
    simp [hcond, ih (k + 1) (by omega), hdel]

/-- C7: with error recovery enabled, an operation failing on every attempt is
tried once and retried maxRetryAttempts further times with exponential backoff
delays capped at five seconds, and the loop fails carrying the error of the
last attempt; items already completed are never re-entered by a later item's
retries (the item loop distributes over concatenation, each item retrying only
its own operation). -/
theorem agent_retry_C7 (α ε : Type) (op : Nat → Except ε α)
    (maxRetryAttempts : Nat) (es : Nat → ε)
    (hall : ∀ j, j ≤ maxRetryAttempts → op j = .error (es j)) :
    runRetry op true maxRetryAttempts 0 =
      { result := .error (es maxRetryAttempts),
        attemptsUsed := maxRetryAttempts + 1,
        delays := (List.range maxRetryAttempts).map
          (fun i => retryDelayMs (1 + i)) } ∧
    (∀ i, retryDelayMs (1 + i) = min (1000 * 2 ^ i) 5000) ∧
    (∀ (ops extra : List (Nat → Except ε α)) (recovery : Bool) (maxR : Nat),
      processItems (ops ++ extra) recovery maxR =
        processItems ops recovery maxR ++ processItems extra recovery maxR) := by
  refine ⟨?_, ?_, ?_⟩
  · have h := runRetry_allfail op maxRetryAttempts es hall maxRetryAttempts 0
      (by omega)
    simpa using h
  · intro i
    simp [retryDelayMs]
  · intro ops extra recovery maxR
    simp [processItems]

/-- An operation that fails on every attempt, used as the retry witness. -/
def alwaysFailingOp : Nat → Except String String :=
  fun k => .error (toString k)

/-- C7 witness: the retry theorem applied to the always-failing operation with
a retry budget of two: three attempts, backoff delays of one and two seconds,
failure carrying the error of attempt two, and the two-item loop splitting
into independent per-item loops. -/
theorem agent_retry_C7_witness :
    runRetry alwaysFailingOp true 2 0 =
      { result := .error (toString 2), attemptsUsed := 2 + 1,
        delays := (List.range 2).map (fun i => retryDelayMs (1 + i)) } ∧
    retryDelayMs (1 + 0) = min (1000 * 2 ^ 0) 5000 ∧
    processItems ([alwaysFailingOp] ++ [alwaysFailingOp]) true 2 =
      processItems [alwaysFailingOp] true 2 ++
        processItems [alwaysFailingOp] true 2 := by
  have h := agent_retry_C7 String String alwaysFailingOp 2 toString
    (fun j _ => rfl)
  exact ⟨h.1, h.2.1 0, h.2.2 [alwaysFailingOp] [alwaysFailingOp] true 2⟩

/-- C10 witness: the authentication theorem applied to the concrete bearer
token invalid-key. -/
theorem websocket_auth_bearer_C10_witness :
    verifyClient (some ("Bearer " ++ "invalid-key")) = true :=
  websocket_auth_bearer_C10.2.2 "invalid-key"

/-- C4 witness: the idempotence theorem applied to a concrete broker state
and allocation id. -/
theorem release_idempotent_C4_witness :
    releaseStep Nat "alloc-1" (releaseStep Nat "alloc-1" 0).2 =
      releaseStep Nat "alloc-1" 0 ∧
    (releaseStep Nat "alloc-1" 0).1 =
      .ok { allocationId := "alloc-1", status := "released" } ∧
    (releaseStep Nat "alloc-1" 0).2 = 0 :=
  release_idempotent_C4 Nat 0 "alloc-1"

/-- C2 amended claim witness: a nine-core request against the bridge that
declares eight free cores is granted in full. -/
theorem allocate_grants_full_C2_witness :
    (fallbackAllocate "alloc-1" 0 5 { compute := 9, pool := none }).allocated =
      { compute := 9, pool := none } ∧
    (fallbackAllocate "alloc-1" 0 5 { compute := 9, pool := none }).status =
      "allocated" ∧
    grantedComputeSum "alloc-1" 0 5 [{ compute := 9, pool := none }] = 9 :=
  allocate_grants_full_C2 "alloc-1" 0 5 { compute := 9, pool := none }

/-- C5 amended claim witness: the never-errs theorem applied to a concrete
four-core request. -/
theorem allocate_never_errs_C5_witness :
    ∃ resp : AllocResponse,
      allocateEndpoint "alloc-1" 0 5 { compute := 4, pool := none } =
        .ok resp ∧
      resp.status = "allocated" ∧
      resp.allocated = { compute := 4, pool := none } :=
  allocate_never_errs_C5 "alloc-1" 0 5 { compute := 4, pool := none }

/-- C6 witness: the Result contract applied at concrete values. -/
theorem result_contract_C6_witness :
    (MResult.ok (ε := String) 1).isOk = true ∧
    (MResult.ok (ε := String) 1).valueField = some 1 ∧
    (MResult.ok (ε := String) 1).unwrapOr 0 = 1 ∧
    (MResult.err (α := Nat) "boom").isErr = true ∧
    (MResult.err (α := Nat) "boom").errorField = some "boom" ∧
    (MResult.err (α := Nat) "boom").unwrapOr 0 = 0 ∧
    (MResult.ok (ε := String) 1).map (fun x => x + 1) = MResult.ok 2 ∧
    (MResult.err (α := Nat) "boom").map (fun x => x + 1) =
      MResult.err "boom" ∧
    (MResult.ok (ε := String) 1).mapErr (fun s => s) = MResult.ok 1 ∧
    (MResult.err (α := Nat) "boom").mapErr (fun s => s) =
      MResult.err "boom" ∧
    (MResult.ok (ε := String) 1).andThen (fun _ => MResult.ok 2) =
      (fun _ => MResult.ok 2) 1 ∧
    (MResult.err (α := Nat) "boom").andThen
        (fun _ => MResult.ok (ε := String) 2) = MResult.err "boom" :=
  result_contract_C6 Nat Nat String String 1 "boom" 0
    (fun x => x + 1) (fun s => s) (fun _ => MResult.ok 2)

end Maple
